import Mathlib

/-!
Verification of the social_media_susi orchestration code against its
natural-language specification.

The Python source is shallowly embedded: each stage's external call is an
oracle value (an `Except` result, or a function from the stage's inputs to an
`Except` result), and each workflow is a pure Lean function from the oracles
to the list of observable events it produces (notifications sent, cells
written, files moved/removed, ids added to the seen set), mirroring the
source's control flow statement by statement.
-/

set_option maxRecDepth 4096

namespace Susi

/-- `true` iff an `Except` result is a success (`ok`). -/
def exOk {E A : Type} : Except E A → Bool
  | .ok _ => true
  | .error _ => false

/-! ## Backoff retry wrapper — `retry_utils.py`, `retry` / `f_retry`

The decorated call is modelled by `retryRun attempt tries delay backoff`,
where `attempt k` is the outcome of the (k+1)-th invocation of the wrapped
function `f`.  The claims quantify only over failure sequences drawn from the
retryable error set `ExceptionToCheck`, so every `.error` outcome here is a
matching (retryable) exception.  The trace records the final result, the
sleep durations passed to `time.sleep`, and how many times `f` was invoked.
-/

/-- Result, sleeps and call count of one run of a `retry`-wrapped function. -/
structure RetryTrace (E A : Type) where
  result : Except E A
  sleeps : List Nat
  calls : Nat
deriving Repr

/-- The `while mtries > 1` loop of `f_retry`, followed by the final bare
attempt.  Arguments mirror the Python locals: remaining `mtries`, current
`mdelay`; `k` is the index of the next invocation of `f`. -/
def retryGo {E A : Type} (attempt : Nat → Except E A) (backoff : Nat) :
    Nat → Nat → Nat → RetryTrace E A
  | 0, _, k => ⟨attempt k, [], 1⟩
  | 1, _, k => ⟨attempt k, [], 1⟩
  | m + 2, mdelay, k =>
    match attempt k with
    | .ok a => ⟨.ok a, [], 1⟩
    | .error _ =>
      let t := retryGo attempt backoff (m + 1) (mdelay * backoff) (k + 1)
      ⟨t.result, mdelay :: t.sleeps, t.calls + 1⟩

/-- `retry(ExceptionToCheck, tries, delay, backoff)` applied to a function
whose successive invocations yield `attempt 0, attempt 1, …`. -/
def retryRun {E A : Type} (attempt : Nat → Except E A)
    (tries delay backoff : Nat) : RetryTrace E A :=
  retryGo attempt backoff tries delay 0

/-- Attempt sequence used in the retry witness: fails once, then succeeds. -/
def attemptW : Nat → Except String Nat :=
  fun j => if j = 0 then .error "boom" else .ok 5

/-! ## Excel worksheet model — `excel_monitor.py` -/

/-- Python truthiness of an optional string value (`None` and `""` are
falsy, every other string is truthy). -/
def pyTruthy : Option String → Bool
  | none => false
  | some s => !(s == "")

/-- Python `a or b` on optional string values: `a` if truthy, else `b`. -/
def pyOr (a b : Option String) : Option String :=
  if pyTruthy a then a else b

/-- Python f-string rendering of an optional value (`None` prints as
`"None"`). -/
def pyStr : Option String → String
  | none => "None"
  | some s => s

/-- ASCII lowering of one character, as `str.lower()` acts on the
configuration values involved here. -/
def lowerChar (c : Char) : Char :=
  if 65 ≤ c.toNat ∧ c.toNat ≤ 90 then Char.ofNat (c.toNat + 32) else c

/-- Python `s.lower()`. -/
def pyLower (s : String) : String := String.mk (s.data.map lowerChar)

/-- One worksheet data row, as the dict built by `dict(zip(header, row))`:
an association list from column name to cell text. -/
abbrev SheetRow := List (String × String)

/-- `row.get(key)`.  A Python dict built from `zip` keeps the last
occurrence of a duplicated key, hence `getLast?`. -/
def rowGet (r : SheetRow) (k : String) : Option String :=
  ((r.filter (fun p => p.1 == k)).getLast?).map (·.2)

/-- `[dict(zip(header, row)) for row in values[1:]]`: the worksheet's data
rows keyed by the header row. -/
def sheetDataRows (values : List (List String)) : List SheetRow :=
  match values with
  | [] => []
  | header :: rest => rest.map (fun r => header.zip r)

/-- `not row.get("processed")`: the row filter used by `get_excel_rows`. -/
def rowUnprocessed (r : SheetRow) : Bool :=
  !(pyTruthy (rowGet r "processed"))

/-- `get_excel_rows()`: returns `[]` when the used range has fewer than two
rows, otherwise the data rows whose `processed` cell is falsy. -/
def get_excel_rows (values : List (List String)) : List SheetRow :=
  if values.length < 2 then []
  else (sheetDataRows values).filter rowUnprocessed

/-- The 1-based worksheet row number targeted by `write_instagram_post`,
`write_linkedin_post` and `mark_row_processed` for a given `row_index`:
the source computes `excel_row = row_index + 1` and the cell address row
`excel_row + 1`. -/
def write_cell_row (rowIndex : Nat) : Nat := (rowIndex + 1) + 1

/-- The 1-based worksheet row number at which the data row with 0-based
index `d` physically sits (the header occupies worksheet row 1). -/
def physSheetRow (d : Nat) : Nat := d + 2

/-- Index, within a list, of the `i`-th element (0-based) satisfying `p`:
the physical position of the `i`-th row surviving a filter. -/
def nthTrueIdx {α : Type} (p : α → Bool) : List α → Nat → Option Nat
  | [], _ => none
  | a :: l, i =>
    if p a then
      match i with
      | 0 => some 0
      | i + 1 => (nthTrueIdx p l i).map (· + 1)
    else (nthTrueIdx p l i).map (· + 1)

/-! ## Content pipeline — `main.py`, `process_excel_topics`

Per-row external calls are oracles (`XOracles`); the loop body is the pure
function `processRow`, returning the list of observable events in program
order.  Generation oracles are functions of the article list actually passed
to them, so a changed news outcome propagates exactly as in the source.
-/

/-- A news article as returned by `fetch_news_articles` (a dict that may or
may not carry a `title` key; only the title is consumed downstream). -/
structure Article where
  title : Option String
  description : Option String
deriving DecidableEq, Repr

/-- One Excel row as consumed by the loop: the values (if any) behind the
header-name variants probed by `row.get(...)`. -/
structure XRow where
  contentCap : Option String
  contentLow : Option String
  targetCap : Option String
  targetMid : Option String
  targetLow : Option String
deriving DecidableEq, Repr

/-- `row.get('Content') or row.get('content')`. -/
def effContent (r : XRow) : Option String := pyOr r.contentCap r.contentLow

/-- `row.get('Target Group') or row.get('target group') or
row.get('target_group')`. -/
def effTarget (r : XRow) : Option String :=
  pyOr (pyOr r.targetCap r.targetMid) r.targetLow

/-- Outcomes of the external calls made while handling one row. -/
structure XOracles where
  news : Except String (List Article)
  instaGen : List Article → Except String String
  instaWrite : String → Except String Unit
  liGen : List Article → Except String String
  liWrite : String → Except String Unit
  markProc : Except String Unit

/-- The pipeline stage a failure notification reports. -/
inductive XStage
  | news
  | instaGen
  | instaWrite
  | liGen
  | liWrite
  | unexpected
deriving DecidableEq, Repr

/-- Observable events of one row's handling, in program order. -/
inductive XEv
  | warnSkip
  | failNotif (s : XStage)
  | successNotif
  | writeInsta (text : String)
  | writeLi (text : String)
  | markProcessed
deriving DecidableEq, Repr

/-- The fallback caption synthesized when `generate_instagram_post` raises:
article titles joined by newlines when articles exist, else a placeholder. -/
def fallbackCaption (content tg : String) (articles : List Article) : String :=
  if articles.isEmpty then
    "Topic: " ++ content ++ "\nTarget Group: " ++ tg ++
      "\n(No relevant news articles found)"
  else
    "Topic: " ++ content ++ "\nTarget Group: " ++ tg ++
      "\n\nRelevant News:\n" ++
      String.intercalate "\n"
        ((articles.filterMap Article.title).map (fun t => "- " ++ t))

/-- The article list in scope after the news stage: the fetched list on
success, `[]` after the `except` handler. -/
def articlesOf (o : XOracles) : List Article :=
  match o.news with
  | .ok l => l
  | .error _ => []

/-- The Instagram caption in scope after the generation stage: the generated
text on success, the fallback caption after the `except` handler. -/
def captionOf (c tg : String) (o : XOracles) : String :=
  match o.instaGen (articlesOf o) with
  | .ok s => s
  | .error _ => fallbackCaption c tg (articlesOf o)

/-- `linkedin_post` after the LinkedIn generation stage (`None` on failure). -/
def liPostOf (o : XOracles) : Option String :=
  match o.liGen (articlesOf o) with
  | .ok s => some s
  | .error _ => none

/-- `linkedin_success` and the events of the LinkedIn write stage: the write
is attempted only when `linkedin_post` is truthy. -/
def liWriteRes (o : XOracles) : Bool × List XEv :=
  match liPostOf o with
  | none => (false, [])
  | some s =>
    if s == "" then (false, [])
    else
      match o.liWrite s with
      | .ok _ => (true, [.writeLi s])
      | .error _ => (false, [.failNotif .liWrite])

/-- `linkedin_success` at the completion check. -/
def liSuccessOf (o : XOracles) : Bool := (liWriteRes o).1

/-- Events of the news stage. -/
def evNews (o : XOracles) : List XEv :=
  match o.news with
  | .ok _ => []
  | .error _ => [.failNotif .news]

/-- Events of the Instagram generation stage. -/
def evGen (o : XOracles) : List XEv :=
  match o.instaGen (articlesOf o) with
  | .ok _ => []
  | .error _ => [.failNotif .instaGen]

/-- Events of the Instagram write stage (`write_instagram_post`). -/
def evWrite (c tg : String) (o : XOracles) : List XEv :=
  match o.instaWrite (captionOf c tg o) with
  | .ok _ => [.writeInsta (captionOf c tg o)]
  | .error _ => [.failNotif .instaWrite]

/-- Events of the LinkedIn generation stage. -/
def evLiGen (o : XOracles) : List XEv :=
  match o.liGen (articlesOf o) with
  | .ok _ => []
  | .error _ => [.failNotif .liGen]

/-- Events of the completion step: when the caption is truthy and
`linkedin_success` holds, `mark_row_processed` is called; its own failure
escapes to the row-boundary handler (one unexpected-error notification),
otherwise the success notification follows. -/
def evMark (c tg : String) (o : XOracles) : List XEv :=
  if !(captionOf c tg o == "") && liSuccessOf o then
    match o.markProc with
    | .ok _ => [.markProcessed, .successNotif]
    | .error _ => [.failNotif .unexpected]
  else []

/-- One iteration of the `for idx, row in enumerate(rows)` loop of
`process_excel_topics`: the observable events, in program order. -/
def processRow (r : XRow) (o : XOracles) : List XEv :=
  if pyTruthy (effContent r) = false then [.warnSkip]
  else
    evNews o ++ evGen o ++
      evWrite (pyStr (effContent r)) (pyStr (effTarget r)) o ++
      evLiGen o ++ (liWriteRes o).2 ++
      evMark (pyStr (effContent r)) (pyStr (effTarget r)) o

/-- The whole row loop: rows are handled independently, in fetch order. -/
def processRowsList (l : List (XRow × XOracles)) : List (List XEv) :=
  l.map (fun p => processRow p.1 p.2)

/-- Number of occurrences of an event in a trace. -/
def countEv (e : XEv) (l : List XEv) : Nat :=
  (l.filter (fun x => decide (x = e))).length

/-! ## Image pipeline — `main.py`, `process_images` and
`move_onedrive_file_to_processed`

`move_onedrive_file_to_processed` issues a PATCH request and only *logs* on
a non-(200|201) status; it raises only if the request itself raises.  That
distinction is the `MoveRes` type.  `os.remove` and the notification calls
follow; `seen_ids.add(item['id'])` runs last, only when a set was supplied.
-/

/-- Outcome of `move_onedrive_file_to_processed`: either the HTTP request
raised, or it returned a response with the given status code. -/
inductive MoveRes
  | raised (e : String)
  | status (n : Nat)
deriving DecidableEq, Repr

/-- A OneDrive image item (fields consumed by the loop). -/
structure ImgItem where
  id : String
  name : String
deriving DecidableEq, Repr

/-- Outcomes of the external calls made while handling one image. -/
structure ImgOracles where
  download : Except String String
  metaCap : Except String String
  upload : Except String (Option String)
  post : String → String → Except String Bool
  move : MoveRes
  removeFile : Except String Unit

/-- The image-pipeline stage a failure notification reports. -/
inductive IStage
  | download
  | metaCaption
  | upload
  | post
  | unexpected
deriving DecidableEq, Repr

/-- Observable events of one image item's handling, in program order. -/
inductive IEv
  | failNotif (s : IStage)
  | postCall (url caption : String)
  | moveCall
  | removeLocal (path : String)
  | successNotif (caption : String)
  | seenAdd (id : String)
deriving DecidableEq, Repr

/-- One iteration of the `for item in images` loop of `process_images`:
the observable events in program order, and whether the item's id was added
to `seen_ids` (`seenSupplied` says whether a set was passed in). -/
def process_image_item (item : ImgItem) (o : ImgOracles)
    (seenSupplied : Bool) : List IEv × Bool :=
  match o.download with
  | .error _ => ([.failNotif .download], false)
  | .ok path =>
    match o.metaCap with
    | .error _ => ([.failNotif .metaCaption], false)
    | .ok caption =>
      match o.upload with
      | .error _ => ([.failNotif .upload], false)
      | .ok none => ([.failNotif .upload], false)
      | .ok (some url) =>
        match o.post url caption with
        | .error _ => ([.postCall url caption, .failNotif .post], false)
        | .ok false => ([.postCall url caption, .failNotif .post], false)
        | .ok true =>
          match o.move with
          | .raised _ =>
            ([.postCall url caption, .moveCall, .failNotif .unexpected], false)
          | .status _ =>
            match o.removeFile with
            | .error _ =>
              ([.postCall url caption, .moveCall, .failNotif .unexpected],
               false)
            | .ok _ =>
              ([.postCall url caption, .moveCall, .removeLocal path,
                  .successNotif caption] ++
                (if seenSupplied then [.seenAdd item.id] else []),
               seenSupplied)

/-- The whole image loop: items are handled independently, in listing
order; a failure aborts only its own item. -/
def process_images_loop (items : List (ImgItem × ImgOracles))
    (seenSupplied : Bool) : List IEv :=
  match items with
  | [] => []
  | (it, o) :: rest =>
    (process_image_item it o seenSupplied).1 ++
      process_images_loop rest seenSupplied

/-! ## Trigger loop, schedule mode — `main.py`, `main` and
`config.py`, `DAY_MAP` -/

/-- The keys of `DAY_MAP`: the seven recognized weekday names. -/
def dayMapKeys : List String :=
  ["monday", "tuesday", "wednesday", "thursday", "friday", "saturday",
   "sunday"]

/-- A standing job registered with the scheduler. -/
structure ScheduleJob where
  day : String
  time : String
  task : String
deriving DecidableEq, Repr

/-- Outcome of `main(trigger_mode="schedule")` up to the scheduling loop:
which jobs were registered, how many notification emails the schedule
branch sent (none — the branch contains no notification call), whether the
`while True: schedule.run_pending()` loop was reached (jobs only ever run
inside it), and the `ValueError` message if one was raised first. -/
structure SchedOut where
  registered : List ScheduleJob
  notifsSent : Nat
  enteredLoop : Bool
  raised : Option String
deriving DecidableEq, Repr

/-- `main(trigger_mode="schedule")`, modelled up to entry of the scheduling
loop.  Arguments are the configured schedule values (`None` = key absent,
defaulted as in the source). -/
def main_schedule (imgDay imgTime postDay postTime : Option String) :
    SchedOut :=
  let d1 := pyLower (imgDay.getD "Tuesday")
  let t1 := imgTime.getD "09:00"
  let d2 := pyLower (postDay.getD "Thursday")
  let t2 := postTime.getD "09:00"
  if d1 ∈ dayMapKeys then
    if d2 ∈ dayMapKeys then
      ⟨[⟨d1, t1, "process_images"⟩, ⟨d2, t2, "process_excel_topics"⟩],
       0, true, none⟩
    else
      ⟨[⟨d1, t1, "process_images"⟩], 0, false,
       some ("Unknown Instagram workflow schedule day: " ++ d2)⟩
  else
    ⟨[], 0, false, some ("Unknown image workflow schedule day: " ++ d1)⟩

/-! ## Notification gateway — `main.py`, `send_error` / `send_confirmation`
and `email_utils.py`, `send_error_email` / `_send_error_email_with_retry`

Transport outcomes are oracles; `gmailMain` is the direct `send_gmail` call
in `main.py`, `gmailTry k` / `smtpTry k` the calls inside the k-th tenacity
attempt of `_send_error_email_with_retry`.  A function returning `.error`
models an escaped exception.
-/

/-- Transport outcomes for one notification. -/
structure MailOracles where
  gmailMain : Except String Unit
  gmailTry : Nat → Except String Unit
  smtpTry : Nat → Except String Unit

/-- One attempt of `_send_error_email_with_retry`'s body: Gmail first when
the provider is gmail (its failure logged, falling through), then SMTP,
whose failure is re-raised. -/
def retry_body (provider : String) (o : MailOracles) (k : Nat) :
    Except String Unit :=
  if pyLower provider = "gmail" then
    match o.gmailTry k with
    | .ok _ => .ok ()
    | .error _ => o.smtpTry k
  else o.smtpTry k

/-- The tenacity policy on `_send_error_email_with_retry`:
`stop_after_attempt(3)`, `retry_if_exception_type(Exception)`,
`reraise=True` — up to three body attempts, the last failure re-raised. -/
def tenacity3 (body : Nat → Except String Unit) : Except String Unit :=
  match body 0 with
  | .ok _ => .ok ()
  | .error _ =>
    match body 1 with
    | .ok _ => .ok ()
    | .error _ => body 2

/-- `send_error_email`: wraps the retried send in `try/except` and logs,
never re-raising. -/
def send_error_email (provider : String) (o : MailOracles) :
    Except String Unit :=
  match tenacity3 (retry_body provider o) with
  | .ok _ => .ok ()
  | .error _ => .ok ()

/-- `main.send_error`: with a gmail provider, one direct `send_gmail` call
inside `try/except`; otherwise delegate to `send_error_email`. -/
def send_error (provider : String) (o : MailOracles) : Except String Unit :=
  if pyLower provider = "gmail" then
    match o.gmailMain with
    | .ok _ => .ok ()
    | .error _ => .ok ()
  else send_error_email provider o

/-- `main.send_confirmation`: identical control flow to `main.send_error`
(the source differs only in log text). -/
def send_confirmation (provider : String) (o : MailOracles) :
    Except String Unit :=
  if pyLower provider = "gmail" then
    match o.gmailMain with
    | .ok _ => .ok ()
    | .error _ => .ok ()
  else send_error_email provider o

/-! ## Concrete inputs used by witnesses and counterexamples -/

/-- Row with content "A" and no target group. -/
def rowA : XRow := ⟨some "A", none, none, none, none⟩

/-- Row with every probed key absent (empty/missing content). -/
def rowEmpty : XRow := ⟨none, none, none, none, none⟩

/-- Oracles where the Instagram write fails but everything else succeeds:
exhibits a row marked processed without a successful Instagram write. -/
def oInstaWriteFails : XOracles :=
  { news := .ok []
    instaGen := fun _ => .ok "cap"
    instaWrite := fun _ => .error "patch failed"
    liGen := fun _ => .ok "li"
    liWrite := fun _ => .ok ()
    markProc := .ok () }

/-- Oracles where every stage succeeds. -/
def oAllOk : XOracles :=
  { news := .ok []
    instaGen := fun _ => .ok "cap"
    instaWrite := fun _ => .ok ()
    liGen := fun _ => .ok "li"
    liWrite := fun _ => .ok ()
    markProc := .ok () }

/-- Oracles where the Instagram generation fails, over one titled and one
untitled article. -/
def oGenFails : XOracles :=
  { news := .ok [⟨some "T1", some "D1"⟩, ⟨none, some "D2"⟩]
    instaGen := fun _ => .error "llm down"
    instaWrite := fun _ => .ok ()
    liGen := fun _ => .ok "li"
    liWrite := fun _ => .ok ()
    markProc := .ok () }

/-- Image item used in concrete scenarios. -/
def imgItem1 : ImgItem := ⟨"img-1", "photo.jpg"⟩

/-- Image oracles where publish succeeds but the archive move returns an
HTTP 500 response (a failed move that does not raise). -/
def oMoveFails : ImgOracles :=
  { download := .ok "/tmp/photo.jpg"
    metaCap := .ok "caption"
    upload := .ok (some "https://bucket/photo.jpg")
    post := fun _ _ => .ok true
    move := .status 500
    removeFile := .ok () }

/-- Image oracles where the S3 upload returns `None`. -/
def oUploadNone : ImgOracles :=
  { download := .ok "/tmp/photo.jpg"
    metaCap := .ok "caption"
    upload := .ok none
    post := fun _ _ => .ok true
    move := .status 200
    removeFile := .ok () }

/-- Worksheet values with a header and two data rows, the first already
processed. -/
def sheetW : List (List String) :=
  [["Content", "processed"], ["A", "x"], ["B", ""]]

end Susi

namespace Susi

theorem retryGo_success {E A : Type} (attempt : Nat → Except E A) (backoff : Nat) :
    ∀ (K m d k : Nat) (a : A), K < m →
      (∀ j, j < K → exOk (attempt (k + j)) = false) →
      attempt (k + K) = .ok a →
      retryGo attempt backoff m d k =
        ⟨.ok a, (List.range K).map (fun j => d * backoff ^ j), K + 1⟩ := by
  intro K
  induction K with
  | zero =>
    intro m d k a hm _ hK
    simp only [Nat.add_zero] at hK
    match m, hm with
    | 1, _ => simp [retryGo, hK]
    | m + 2, _ => simp [retryGo, hK]
  | succ K ih =>
    intro m d k a hm hfail hK
    match m, hm with
    | m + 2, _ =>
      have h0 : exOk (attempt k) = false := by
        have := hfail 0 (Nat.succ_pos K)
        simpa using this
      have hrec := ih (m + 1) (d * backoff) (k + 1) a
        (by omega)
        (fun j hj => by
          have := hfail (j + 1) (Nat.succ_lt_succ hj)
          simpa [Nat.add_comm, Nat.add_assoc, Nat.add_left_comm] using this)
        (by simpa [Nat.add_comm, Nat.add_assoc, Nat.add_left_comm] using hK)
      cases hak : attempt k with
      | ok a' => rw [hak] at h0; simp [exOk] at h0
      | error e =>
        simp only [retryGo, hak, hrec]
        have hmap : (List.range (K + 1)).map (fun j => d * backoff ^ j) =
            d :: (List.range K).map (fun j => d * backoff * backoff ^ j) := by
          rw [List.range_succ_eq_map]
          simp only [List.map_cons, List.map_map, pow_zero, mul_one]
          refine congrArg (d :: ·) ?_
          refine List.map_congr_left ?_
          intro j _
          simp [Function.comp, pow_succ]
          ring
        rw [hmap]

theorem retryGo_allfail {E A : Type} (attempt : Nat → Except E A) (backoff : Nat) :
    ∀ (m d k : Nat), 1 ≤ m →
      (∀ j, j < m → exOk (attempt (k + j)) = false) →
      retryGo attempt backoff m d k =
        ⟨attempt (k + (m - 1)),
         (List.range (m - 1)).map (fun j => d * backoff ^ j), m⟩ := by
  intro m
  induction m with
  | zero => intro d k h; omega
  | succ m ih =>
    intro d k _ hfail
    match m with
    | 0 => simp [retryGo]
    | m + 1 =>
      have h0 : exOk (attempt k) = false := by
        have := hfail 0 (Nat.succ_pos _)
        simpa using this
      cases hak : attempt k with
      | ok a => rw [hak] at h0; simp [exOk] at h0
      | error e =>
        have hrec := ih (d * backoff) (k + 1) (Nat.succ_le_succ (Nat.zero_le m))
          (fun j hj => by
            have := hfail (j + 1) (Nat.succ_lt_succ hj)
            simpa [Nat.add_comm, Nat.add_assoc, Nat.add_left_comm] using this)
        simp only [retryGo, hak, hrec]
        have hidx : k + 1 + (m + 1 - 1) = k + (m + 2 - 1) := by omega
        have hmap : (List.range (m + 2 - 1)).map (fun j => d * backoff ^ j) =
            d :: (List.range (m + 1 - 1)).map
              (fun j => d * backoff * backoff ^ j) := by
          show (List.range (m + 1)).map (fun j => d * backoff ^ j) =
            d :: (List.range m).map (fun j => d * backoff * backoff ^ j)
          rw [List.range_succ_eq_map]
          simp only [List.map_cons, List.map_map, pow_zero, mul_one]
          refine congrArg (d :: ·) ?_
          refine List.map_congr_left ?_
          intro j _
          simp [Function.comp, pow_succ]
          ring
        rw [hidx, hmap]

/-- C1: a `retry(ExceptionToCheck, tries, delay, backoff)`-wrapped operation
with `tries ≥ 1`, over failure sequences drawn from the retryable set: if the
operation fails `K < tries` times and then succeeds, the wrapper returns the
success value, sleeps exactly `K` times with delays
`delay, delay*backoff, …, delay*backoff^(K-1)`, and invokes the operation
`K+1` times; if the operation fails on every attempt, the wrapper invokes it
exactly `tries` times and re-raises the last failure unmodified. -/
theorem retry_contract {E A : Type} (attempt : Nat → Except E A)
    (tries delay backoff K : Nat) (a : A) (htries : 1 ≤ tries) :
    (K < tries →
      (∀ j, j < K → exOk (attempt j) = false) →
      attempt K = .ok a →
      retryRun attempt tries delay backoff =
        ⟨.ok a, (List.range K).map (fun j => delay * backoff ^ j), K + 1⟩)
    ∧ ((∀ j, j < tries → exOk (attempt j) = false) →
      retryRun attempt tries delay backoff =
        ⟨attempt (tries - 1),
         (List.range (tries - 1)).map (fun j => delay * backoff ^ j), tries⟩) := by
  constructor
  · intro hK hfail hok
    have := retryGo_success attempt backoff K tries delay 0 a hK
      (fun j hj => by simpa using hfail j hj) (by simpa using hok)
    simpa [retryRun] using this
  · intro hfail
    have := retryGo_allfail attempt backoff tries delay 0 htries
      (fun j hj => by simpa using hfail j hj)
    simpa [retryRun] using this

theorem retry_contract_witness :
    1 ≤ 3 ∧
    retryRun attemptW 3 2 3 =
      ⟨.ok 5, (List.range 1).map (fun j => 2 * 3 ^ j), 1 + 1⟩ := by
  refine ⟨by decide, ?_⟩
  exact (retry_contract attemptW 3 2 3 1 5 (by decide)).1 (by decide)
    (by decide) rfl

/-! ## Shared trace lemmas -/

theorem countEv_append (e : XEv) (l₁ l₂ : List XEv) :
    countEv e (l₁ ++ l₂) = countEv e l₁ + countEv e l₂ := by
  simp [countEv, List.filter_append]

theorem markProc_notin_evNews (o : XOracles) :
    XEv.markProcessed ∉ evNews o := by
  unfold evNews; cases o.news <;> simp

theorem markProc_notin_evGen (o : XOracles) :
    XEv.markProcessed ∉ evGen o := by
  unfold evGen; cases o.instaGen (articlesOf o) <;> simp

theorem markProc_notin_evWrite (c tg : String) (o : XOracles) :
    XEv.markProcessed ∉ evWrite c tg o := by
  unfold evWrite; cases o.instaWrite (captionOf c tg o) <;> simp

theorem markProc_notin_evLiGen (o : XOracles) :
    XEv.markProcessed ∉ evLiGen o := by
  unfold evLiGen; cases o.liGen (articlesOf o) <;> simp

theorem markProc_notin_liWriteRes (o : XOracles) :
    XEv.markProcessed ∉ (liWriteRes o).2 := by
  unfold liWriteRes
  rcases liPostOf o with _ | s
  · simp
  · dsimp only
    split
    · simp
    · cases o.liWrite s <;> simp

theorem count_instaGenFail_evNews (o : XOracles) :
    countEv (XEv.failNotif .instaGen) (evNews o) = 0 := by
  unfold evNews; cases o.news <;> rfl

theorem count_instaGenFail_evWrite (c tg : String) (o : XOracles) :
    countEv (XEv.failNotif .instaGen) (evWrite c tg o) = 0 := by
  unfold evWrite; cases o.instaWrite (captionOf c tg o) <;> rfl

theorem count_instaGenFail_evLiGen (o : XOracles) :
    countEv (XEv.failNotif .instaGen) (evLiGen o) = 0 := by
  unfold evLiGen; cases o.liGen (articlesOf o) <;> rfl

theorem count_instaGenFail_liWriteRes (o : XOracles) :
    countEv (XEv.failNotif .instaGen) (liWriteRes o).2 = 0 := by
  unfold liWriteRes
  rcases liPostOf o with _ | s
  · rfl
  · dsimp only
    split
    · rfl
    · cases o.liWrite s <;> rfl

theorem count_instaGenFail_evMark (c tg : String) (o : XOracles) :
    countEv (XEv.failNotif .instaGen) (evMark c tg o) = 0 := by
  unfold evMark
  split
  · cases o.markProc <;> rfl
  · rfl

theorem count_newsFail_evGen (o : XOracles) :
    countEv (XEv.failNotif .news) (evGen o) = 0 := by
  unfold evGen; cases o.instaGen (articlesOf o) <;> rfl

theorem count_newsFail_evWrite (c tg : String) (o : XOracles) :
    countEv (XEv.failNotif .news) (evWrite c tg o) = 0 := by
  unfold evWrite; cases o.instaWrite (captionOf c tg o) <;> rfl

theorem count_newsFail_evLiGen (o : XOracles) :
    countEv (XEv.failNotif .news) (evLiGen o) = 0 := by
  unfold evLiGen; cases o.liGen (articlesOf o) <;> rfl

theorem count_newsFail_liWriteRes (o : XOracles) :
    countEv (XEv.failNotif .news) (liWriteRes o).2 = 0 := by
  unfold liWriteRes
  rcases liPostOf o with _ | s
  · rfl
  · dsimp only
    split
    · rfl
    · cases o.liWrite s <;> rfl

theorem count_newsFail_evMark (c tg : String) (o : XOracles) :
    countEv (XEv.failNotif .news) (evMark c tg o) = 0 := by
  unfold evMark
  split
  · cases o.markProc <;> rfl
  · rfl

theorem processRow_truthy (r : XRow) (o : XOracles)
    (h : pyTruthy (effContent r) = true) :
    processRow r o =
      evNews o ++ evGen o ++
        evWrite (pyStr (effContent r)) (pyStr (effTarget r)) o ++
        evLiGen o ++ (liWriteRes o).2 ++
        evMark (pyStr (effContent r)) (pyStr (effTarget r)) o := by
  simp [processRow, h]

/-- C2 counterexample: content "A", all stages succeeding except the
Instagram *write* (the PATCH to the `Instagram` column fails).  The row is
still marked processed and the success notification sent, although no
Instagram caption was written to the sheet in this run. -/
theorem row_marked_without_insta_write_cex :
    processRow rowA oInstaWriteFails =
      [.failNotif .instaWrite, .writeLi "li", .markProcessed, .successNotif]
    ∧ XEv.markProcessed ∈ processRow rowA oInstaWriteFails
    ∧ exOk (oInstaWriteFails.instaWrite "cap") = false
    ∧ XEv.writeInsta "cap" ∉ processRow rowA oInstaWriteFails := by
  decide

/-- C2 amended: if a run of `process_excel_topics` marks a row processed,
then a non-empty Instagram caption was *produced* for the row (generated or
fallback) and the LinkedIn-write stage reported success in that same run;
success of the Instagram-write stage is not required for the marking. -/
theorem row_marked_implies_caption_and_linkedin (r : XRow) (o : XOracles)
    (h : XEv.markProcessed ∈ processRow r o) :
    pyTruthy (effContent r) = true
    ∧ captionOf (pyStr (effContent r)) (pyStr (effTarget r)) o ≠ ""
    ∧ liSuccessOf o = true := by
  by_cases hc : pyTruthy (effContent r) = true
  · refine ⟨hc, ?_⟩
    rw [processRow_truthy r o hc] at h
    simp only [List.mem_append] at h
    rcases h with ((((h | h) | h) | h) | h) | h
    · exact absurd h (markProc_notin_evNews o)
    · exact absurd h (markProc_notin_evGen o)
    · exact absurd h (markProc_notin_evWrite _ _ o)
    · exact absurd h (markProc_notin_evLiGen o)
    · exact absurd h (markProc_notin_liWriteRes o)
    · unfold evMark at h
      split at h
      · rename_i hcond
        rw [Bool.and_eq_true, Bool.not_eq_true'] at hcond
        refine ⟨?_, hcond.2⟩
        intro he
        rw [he] at hcond
        simpa using hcond.1
      · simp at h
  · have hcf : pyTruthy (effContent r) = false := by
      cases hv : pyTruthy (effContent r)
      · rfl
      · exact absurd hv hc
    simp [processRow, hcf] at h

theorem row_marked_implies_caption_and_linkedin_witness :
    XEv.markProcessed ∈ processRow rowA oAllOk
    ∧ (pyTruthy (effContent rowA) = true
      ∧ captionOf (pyStr (effContent rowA)) (pyStr (effTarget rowA)) oAllOk
          ≠ ""
      ∧ liSuccessOf oAllOk = true) :=
  ⟨by decide, row_marked_implies_caption_and_linkedin rowA oAllOk (by decide)⟩

/-- C6: when the Instagram generation stage fails for a row with content
`C`, rendered target group `T` and fetched article list `A`, exactly one
failure notification is sent for that generation failure, and the caption
used for the row is the deterministic fallback: `"Topic: C\nTarget Group:
T\n\nRelevant News:\n"` followed by one `"- <title>"` line per article of
`A` that has a title, or the `"(No relevant news articles found)"` form
when `A` is empty. -/
theorem insta_gen_failure_fallback (r : XRow) (o : XOracles)
    (C T e : String)
    (hC : effContent r = some C) (hCne : C ≠ "")
    (hT : pyStr (effTarget r) = T)
    (hg : o.instaGen (articlesOf o) = .error e) :
    countEv (XEv.failNotif .instaGen) (processRow r o) = 1
    ∧ captionOf (pyStr (effContent r)) (pyStr (effTarget r)) o =
        (if (articlesOf o).isEmpty then
          "Topic: " ++ C ++ "\nTarget Group: " ++ T ++
            "\n(No relevant news articles found)"
        else
          "Topic: " ++ C ++ "\nTarget Group: " ++ T ++
            "\n\nRelevant News:\n" ++
            String.intercalate "\n"
              (((articlesOf o).filterMap Article.title).map
                (fun t => "- " ++ t))) := by
  subst hT
  have hct : pyTruthy (effContent r) = true := by
    rw [hC]
    simp [pyTruthy, hCne]
  constructor
  · rw [processRow_truthy r o hct]
    rw [countEv_append, countEv_append, countEv_append, countEv_append,
      countEv_append]
    rw [count_instaGenFail_evNews, count_instaGenFail_evWrite,
      count_instaGenFail_evLiGen, count_instaGenFail_liWriteRes,
      count_instaGenFail_evMark]
    have hg1 : countEv (XEv.failNotif .instaGen) (evGen o) = 1 := by
      unfold evGen
      rw [hg]
      rfl
    rw [hg1]
  · unfold captionOf
    rw [hg, hC]
    unfold fallbackCaption
    rfl

theorem insta_gen_failure_fallback_witness :
    effContent rowA = some "A"
    ∧ countEv (XEv.failNotif .instaGen) (processRow rowA oGenFails) = 1 :=
  ⟨by decide,
    (insta_gen_failure_fallback rowA oGenFails "A" "None" "llm down"
      (by decide) (by decide) rfl rfl).1⟩

/-- C7: a news-fetch failure for a row yields exactly one failure
notification and does not abort the row — the rest of that row's trace is
exactly the trace the row would produce with an empty article list — and
the row loop handles every row independently, so no other row's processing
is affected. -/
theorem news_failure_fail_forward (r : XRow) (o : XOracles) (e : String)
    (h : pyTruthy (effContent r) = true) :
    processRow r { o with news := .error e } =
      XEv.failNotif .news :: processRow r { o with news := .ok [] }
    ∧ countEv (XEv.failNotif .news)
        (processRow r { o with news := .error e }) = 1
    ∧ ∀ pre post,
        processRowsList (pre ++ (r, { o with news := .error e }) :: post) =
          processRowsList pre ++
            processRow r { o with news := .error e } ::
              processRowsList post := by
  have h1 : processRow r { o with news := .error e } =
      XEv.failNotif .news :: processRow r { o with news := .ok [] } := by
    rw [processRow_truthy r _ h, processRow_truthy r _ h]
    rfl
  refine ⟨h1, ?_, ?_⟩
  · rw [h1]
    have h0 : countEv (XEv.failNotif .news)
        (processRow r { o with news := .ok [] }) = 0 := by
      rw [processRow_truthy r _ h]
      rw [countEv_append, countEv_append, countEv_append, countEv_append,
        countEv_append]
      rw [count_newsFail_evGen, count_newsFail_evWrite,
        count_newsFail_evLiGen, count_newsFail_liWriteRes,
        count_newsFail_evMark]
      rfl
    rw [show (XEv.failNotif XStage.news ::
          processRow r { o with news := .ok [] }) =
        [XEv.failNotif XStage.news] ++
          processRow r { o with news := .ok [] } from rfl,
      countEv_append, h0]
    rfl
  · intro pre post
    simp [processRowsList]

theorem nthTrueIdx_spec {α : Type} (p : α → Bool) :
    ∀ (l : List α) (i m : Nat), nthTrueIdx p l i = some m →
      (l.filter p)[i]? = l[m]? ∧ i ≤ m ∧
        (i = m ↔ ∀ j, j < m → ∃ a, l[j]? = some a ∧ p a = true) := by
  intro l
  induction l with
  | nil =>
    intro i m h
    simp [nthTrueIdx] at h
  | cons a l ih =>
    intro i m h
    by_cases hp : p a = true
    · cases i with
      | zero =>
        have hm : m = 0 := by
          simp [nthTrueIdx, hp] at h
          omega
        subst hm
        refine ⟨?_, Nat.le_refl 0, ?_⟩
        · simp [List.filter_cons, hp]
        · simp
      | succ i =>
        have h' : (nthTrueIdx p l i).map (· + 1) = some m := by
          simpa [nthTrueIdx, hp] using h
        rcases Option.map_eq_some'.mp h' with ⟨m', hm', rfl⟩
        obtain ⟨h1, h2, h3⟩ := ih i m' hm'
        refine ⟨?_, by omega, ?_⟩
        · simpa [List.filter_cons, hp] using h1
        · constructor
          · intro he j hj
            cases j with
            | zero => exact ⟨a, by simp, hp⟩
            | succ j =>
              have hj' : j < m' := by omega
              have := h3.mp (by omega) j hj'
              simpa using this
          · intro hall
            have hi : i = m' := by
              apply h3.mpr
              intro j hj
              have := hall (j + 1) (by omega)
              simpa using this
            omega
    · have hpf : p a = false := by
        cases hv : p a
        · rfl
        · exact absurd hv hp
      have h' : (nthTrueIdx p l i).map (· + 1) = some m := by
        simpa [nthTrueIdx, hpf] using h
      rcases Option.map_eq_some'.mp h' with ⟨m', hm', rfl⟩
      obtain ⟨h1, h2, h3⟩ := ih i m' hm'
      refine ⟨?_, by omega, ?_⟩
      · simpa [List.filter_cons, hpf] using h1
      · constructor
        · intro he
          exact absurd he (by omega)
        · intro hall
          exfalso
          rcases hall 0 (by omega) with ⟨a0, ha0, hpa0⟩
          simp at ha0
          subst ha0
          rw [hpf] at hpa0
          exact Bool.false_ne_true hpa0

/-- C5: `get_excel_rows` returns only the unprocessed rows, and the write
helpers translate the enumeration index `i` of that filtered list into the
absolute worksheet cell at row `i + 2`.  When the `i`-th unprocessed row
physically sits at data index `m` (worksheet row `m + 2`), the write
targets the fetched row's physical worksheet row exactly when every data
row preceding it is unprocessed; as soon as some preceding row is already
processed, the cell writes address a different physical sheet row than the
row that was fetched. -/
theorem excel_row_index_mismatch (values : List (List String)) (i m : Nat)
    (hlen : 2 ≤ values.length)
    (h : nthTrueIdx rowUnprocessed (sheetDataRows values) i = some m) :
    (get_excel_rows values)[i]? = (sheetDataRows values)[m]?
    ∧ write_cell_row i = physSheetRow i
    ∧ (write_cell_row i = physSheetRow m ↔
        ∀ j, j < m → ∃ row, (sheetDataRows values)[j]? = some row ∧
          rowUnprocessed row = true) := by
  obtain ⟨h1, h2, h3⟩ :=
    nthTrueIdx_spec rowUnprocessed (sheetDataRows values) i m h
  have hge : get_excel_rows values =
      (sheetDataRows values).filter rowUnprocessed := by
    unfold get_excel_rows
    rw [if_neg (by omega)]
  refine ⟨by rw [hge]; exact h1, rfl, ?_⟩
  unfold write_cell_row physSheetRow
  constructor
  · intro he
    exact h3.mp (by omega)
  · intro hall
    have := h3.mpr hall
    omega

theorem excel_row_index_mismatch_witness :
    2 ≤ sheetW.length
    ∧ nthTrueIdx rowUnprocessed (sheetDataRows sheetW) 0 = some 1
    ∧ (get_excel_rows sheetW)[0]? = (sheetDataRows sheetW)[1]? :=
  ⟨by decide, by decide,
    (excel_row_index_mismatch sheetW 0 1 (by decide) (by decide)).1⟩

theorem news_failure_fail_forward_witness :
    pyTruthy (effContent rowA) = true
    ∧ processRow rowA { oAllOk with news := .error "net down" } =
        XEv.failNotif .news ::
          processRow rowA { oAllOk with news := .ok [] } :=
  ⟨by decide, (news_failure_fail_forward rowA oAllOk "net down" (by decide)).1⟩

/-- C8: a row whose content field is empty or missing is skipped with one
logged warning: no notification of any kind, no data-store write, no
processed marking — the whole trace is the warning. -/
theorem row_empty_content_skipped (r : XRow) (o : XOracles)
    (h : pyTruthy (effContent r) = false) :
    processRow r o = [.warnSkip]
    ∧ XEv.markProcessed ∉ processRow r o
    ∧ (∀ s, XEv.failNotif s ∉ processRow r o)
    ∧ XEv.successNotif ∉ processRow r o
    ∧ (∀ t, XEv.writeInsta t ∉ processRow r o)
    ∧ (∀ t, XEv.writeLi t ∉ processRow r o) := by
  have he : processRow r o = [.warnSkip] := by simp [processRow, h]
  rw [he]
  refine ⟨rfl, by simp, fun s => by simp, by simp, fun t => by simp,
    fun t => by simp⟩

theorem row_empty_content_skipped_witness :
    pyTruthy (effContent rowEmpty) = false
    ∧ processRow rowEmpty oAllOk = [.warnSkip] :=
  ⟨by decide, (row_empty_content_skipped rowEmpty oAllOk (by decide)).1⟩

/-- C10: for every provider configuration and every behaviour of the Gmail
and SMTP transports — including all three tenacity attempts failing —
`send_error` and `send_confirmation` return normally: no transport failure
propagates to the pipeline that triggered the notification. -/
theorem notifications_never_raise (provider : String) (o : MailOracles) :
    exOk (send_error provider o) = true
    ∧ exOk (send_confirmation provider o) = true := by
  constructor
  · unfold send_error send_error_email
    split
    · cases o.gmailMain <;> simp [exOk]
    · cases tenacity3 (retry_body provider o) <;> simp [exOk]
  · unfold send_confirmation send_error_email
    split
    · cases o.gmailMain <;> simp [exOk]
    · cases tenacity3 (retry_body provider o) <;> simp [exOk]

/-- C9: in schedule mode, a configured image- or content-workflow weekday
that (after lower-casing) is not one of the seven recognized names makes
`main` raise a `ValueError` before the scheduling loop: the loop is never
entered (so no scheduled job ever runs) and no notification email is sent
on this path. -/
theorem schedule_bad_day_fatal (imgDay imgTime postDay postTime : Option String)
    (h : pyLower (imgDay.getD "Tuesday") ∉ dayMapKeys
      ∨ pyLower (postDay.getD "Thursday") ∉ dayMapKeys) :
    (main_schedule imgDay imgTime postDay postTime).raised.isSome = true
    ∧ (main_schedule imgDay imgTime postDay postTime).enteredLoop = false
    ∧ (main_schedule imgDay imgTime postDay postTime).notifsSent = 0 := by
  rcases h with h | h
  · simp [main_schedule, h]
  · by_cases h1 : pyLower (imgDay.getD "Tuesday") ∈ dayMapKeys
    · simp [main_schedule, h1, h]
    · simp [main_schedule, h1]

theorem schedule_bad_day_fatal_witness :
    (pyLower ((some "Funday").getD "Tuesday") ∉ dayMapKeys
      ∨ pyLower ((none : Option String).getD "Thursday") ∉ dayMapKeys)
    ∧ (main_schedule (some "Funday") none none none).raised.isSome = true
    ∧ (main_schedule (some "Funday") none none none).enteredLoop = false
    ∧ (main_schedule (some "Funday") none none none).notifsSent = 0 :=
  ⟨by decide, schedule_bad_day_fatal (some "Funday") none none none
    (by decide)⟩

/-- C4: when the object-store upload stage fails (returns `None` or raises)
for an image whose download and caption stages succeeded, exactly one
failure notification is sent, the poster's `post` is never invoked, the
file is not moved to the processed folder, the local temporary file is not
removed, the id is not added to `known_ids`, and the loop continues with
the remaining items unchanged. -/
theorem image_upload_failure_aborts_item (item : ImgItem) (o : ImgOracles)
    (s : Bool) (path cap : String)
    (hd : o.download = .ok path) (hm : o.metaCap = .ok cap)
    (hu : o.upload = .ok none ∨ ∃ e, o.upload = .error e) :
    process_image_item item o s = ([.failNotif .upload], false)
    ∧ (∀ rest, process_images_loop ((item, o) :: rest) s =
        IEv.failNotif .upload :: process_images_loop rest s) := by
  have hmain : process_image_item item o s = ([.failNotif .upload], false) := by
    rcases hu with hu | ⟨e, hu⟩ <;> simp [process_image_item, hd, hm, hu]
  exact ⟨hmain, fun rest => by simp [process_images_loop, hmain]⟩

theorem image_upload_failure_aborts_item_witness :
    oUploadNone.download = .ok "/tmp/photo.jpg"
    ∧ oUploadNone.metaCap = .ok "caption"
    ∧ process_image_item imgItem1 oUploadNone true =
        ([.failNotif .upload], false) :=
  ⟨rfl, rfl,
    (image_upload_failure_aborts_item imgItem1 oUploadNone true
      "/tmp/photo.jpg" "caption" rfl rfl (Or.inl rfl)).1⟩

/-- C3 counterexample: with download, caption, upload and publish all
succeeding, an archive move that *fails* with an HTTP 500 response (500 is
not one of the accepted 200/201 codes) still lets the item's id be added to
`known_ids`, because `move_onedrive_file_to_processed` only logs the failed
response and returns normally. -/
theorem image_move_fail_still_added_cex :
    (process_image_item imgItem1 oMoveFails true).2 = true
    ∧ oMoveFails.move = .status 500
    ∧ ¬(500 = 200 ∨ 500 = 201)
    ∧ IEv.seenAdd "img-1" ∈ (process_image_item imgItem1 oMoveFails true).1 := by
  decide

/-- C3 amended: with a supplied `known_ids` set, an item's id is added to
the set exactly when the download, caption, upload and publish stages all
succeed, the archive-move request returns without raising (regardless of
its HTTP status — a failed move response does not block the addition), and
the local-file removal succeeds. -/
theorem image_seen_add_iff (item : ImgItem) (o : ImgOracles) :
    (process_image_item item o true).2 = true ↔
      ∃ path cap url, o.download = .ok path ∧ o.metaCap = .ok cap
        ∧ o.upload = .ok (some url) ∧ o.post url cap = .ok true
        ∧ (∃ n, o.move = .status n) ∧ o.removeFile = .ok () := by
  unfold process_image_item
  cases hd : o.download with
  | error e => simp [hd]
  | ok path =>
    cases hm : o.metaCap with
    | error e => simp [hd, hm]
    | ok cap =>
      cases hu : o.upload with
      | error e => simp [hd, hm, hu]
      | ok u =>
        cases u with
        | none => simp [hd, hm, hu]
        | some url =>
          cases hp : o.post url cap with
          | error e => simp [hd, hm, hu, hp]
          | ok b =>
            cases b with
            | false => simp [hd, hm, hu, hp]
            | true =>
              cases hmv : o.move with
              | raised e => simp [hd, hm, hu, hp, hmv]
              | status n =>
                cases hr : o.removeFile with
                | error e => simp [hd, hm, hu, hp, hmv, hr]
                | ok u => simp [hd, hm, hu, hp, hmv, hr]

end Susi
